import Mathlib

/-!
Shallow embedding of `src/dataset.py` (the `PolarsDataset` delegating proxy)
and proofs of the specification claims about it.

The external collaborator (the polars tabular engine) is not part of this
repository; following §6 of the design document it is treated as a black box.
Its operations appear either as explicit function parameters of the embedded
proxy operations, or — where a claim needs the engine's documented contract
(the named comparison operators) — as a small concrete model (`dfCompare`,
`polarsAttrs`) faithful to that contract.
-/

/-- The recognized tabular-family classes: the members of the
`DataFrameLikeClasses` tuple in `src/dataset.py`
(`DataFrame`, `GroupBy`, `DynamicGroupBy`, `RollingGroupBy`,
`LazyFrame`, `LazyGroupBy`). -/
inductive DFKind where
  | dataFrame
  | groupBy
  | dynamicGroupBy
  | rollingGroupBy
  | lazyFrame
  | lazyGroupBy
deriving DecidableEq, Repr

/-- A value of one of the recognized tabular-family types (a
`DataFrameLikeType` instance).  Its content is opaque to the proxy; we model
it as a kind tag plus a column of integers, which is all the concrete engine
model below needs. -/
structure DF where
  kind : DFKind
  vals : List Int
deriving DecidableEq, Repr

/-- The proxy: `@dataclasses.dataclass(frozen=True) class PolarsDataset`
with fields `data : DataFrameLikeType` and `extra_attr : str = "hello!"`. -/
structure PolarsDataset where
  data : DF
  extra_attr : String := "hello!"
deriving DecidableEq, Repr

/-- Python values that can be passed as arguments to delegated calls
(operands of operators, method arguments, index keys). -/
inductive Arg where
  | df (d : DF)
  | dataset (ds : PolarsDataset)
  | int (n : Int)
  | str (s : String)
deriving DecidableEq, Repr

/-- Python runtime values, as far as the proxy inspects them: values of the
recognized tabular family (`df`), proxy instances (`dataset`), callables
(`func`), the list and dict shapes `partition_by` may return (per the §6
contract these hold same-family containers, keyed by arbitrary values), the
corresponding shapes holding proxies, and plain data. -/
inductive PyVal where
  | df (d : DF)
  | dataset (ds : PolarsDataset)
  | int (n : Int)
  | str (s : String)
  | bool (b : Bool)
  | listDF (xs : List DF)
  | dictDF (kvs : List (Arg × DF))
  | listDS (xs : List PolarsDataset)
  | dictDS (kvs : List (Arg × PolarsDataset))
  | func (f : List Arg → PyVal)
  | none

/-- Python exceptions the embedded code can raise.  `assertionError` is the
assertion-style fatal error of `assert False`, distinct from the ordinary
(recoverable) exceptions. -/
inductive PyError where
  | attributeError (name : String)
  | typeError (msg : String)
  | assertionError (msg : String)
  | notImplementedError
deriving DecidableEq, Repr

/-- Embeds `isinstance(v, DataFrameLikeClasses)`: exactly the values of the
recognized tabular-family types. -/
def isDataFrameLike : PyVal → Bool
  | .df _ => true
  | _ => false

/-- Embeds `callable(v)`. -/
def isCallable : PyVal → Bool
  | .func _ => true
  | _ => false

/-- Embeds `isinstance(v, PolarsDataset)` on an argument value. -/
def Arg.isDataset : Arg → Bool
  | .dataset _ => true
  | _ => false

/-- Embeds `dataclasses.replace(self, data=new_data)`: a new proxy with the given
payload and `self`'s remaining fields (the metadata). -/
def dataclassesReplace (self : PolarsDataset) (new_data : DF) : PolarsDataset :=
  { self with data := new_data }

namespace PolarsDataset

/-- Embeds `_wrap_method(self, __func)`: returns the `wrapper` closure, which calls
`__func` on the supplied arguments and, if the raw result is
`DataFrame`-like, re-wraps it via `dataclasses.replace(self, data=result)`;
otherwise returns the raw result unchanged.  Generic in the argument type,
mirroring the `*args, **kwargs` forwarding. -/
def wrap_method {α : Type} (self : PolarsDataset) (f : α → PyVal) : α → PyVal :=
  fun args =>
    let result := f args
    match result with
    | .df d => .dataset (dataclassesReplace self d)
    | r => r

/-- The body of `__getattr__` after `attr = getattr(self.data, __name)`
has resolved: the `isinstance(attr, DataFrameLikeClasses)` /
`callable(attr)` / fall-through chain.  The first branch matches exactly the
values with `isDataFrameLike = true`, the second exactly those with
`isCallable = true` (see `resolveAttr_eq_branches`). -/
def resolveAttr (self : PolarsDataset) (attr : PyVal) : PyVal :=
  match attr with
  | .df d => .dataset (dataclassesReplace self d)
  | .func f => .func (self.wrap_method f)
  | a => a

/-- Embeds `__getattr__(self, __name)`: resolve the name on the payload (the
external engine's attribute table `pa`; a missing name is Python's
`AttributeError`, which propagates), then post-process via `resolveAttr`. -/
def getattrPD (pa : DF → String → Option PyVal) (self : PolarsDataset)
    (name : String) : Except PyError PyVal :=
  match pa self.data name with
  | Option.none => .error (.attributeError name)
  | some attr => .ok (self.resolveAttr attr)

/-- Python call of a resolved attribute value: calling a non-callable is a
`TypeError`. -/
def callValue : PyVal → List Arg → Except PyError PyVal
  | .func f, args => .ok (f args)
  | _, _ => .error (.typeError "object is not callable")

/-- Embeds `self.<name>(args)` for a name not defined on the class: resolution goes
through `__getattr__` (so through the payload) and the resolved value is then
called. -/
def callAttr (pa : DF → String → Option PyVal) (self : PolarsDataset)
    (name : String) (args : List Arg) : Except PyError PyVal := do
  let v ← self.getattrPD pa name
  callValue v args

/-- Embeds `_comp(self, other, op)`: proxy operands dispatch to
`self._compare_to_other_df(other, op)`, anything else to
`self._compare_to_non_df(other, op)`.  Neither name is defined on the class,
so both resolve through the attribute-delegation path against the payload. -/
def comp (pa : DF → String → Option PyVal) (self : PolarsDataset)
    (other : Arg) (op : String) : Except PyError PyVal :=
  if other.isDataset then
    callAttr pa self "_compare_to_other_df" [other, .str op]
  else
    callAttr pa self "_compare_to_non_df" [other, .str op]

/-- Embeds `__eq__`: `self._comp(other, "eq")`. -/
def eqOp (pa : DF → String → Option PyVal) (self : PolarsDataset) (other : Arg) :
    Except PyError PyVal :=
  comp pa self other "eq"

/-- Embeds `__ne__`: `self._comp(other, "neq")`. -/
def neOp (pa : DF → String → Option PyVal) (self : PolarsDataset) (other : Arg) :
    Except PyError PyVal :=
  comp pa self other "neq"

/-- Embeds `__gt__`: `self._comp(other, "gt")`. -/
def gtOp (pa : DF → String → Option PyVal) (self : PolarsDataset) (other : Arg) :
    Except PyError PyVal :=
  comp pa self other "gt"

/-- Embeds `__lt__`: `self._comp(other, "lt")`. -/
def ltOp (pa : DF → String → Option PyVal) (self : PolarsDataset) (other : Arg) :
    Except PyError PyVal :=
  comp pa self other "lt"

/-- Embeds `__ge__`: `self._comp(other, "gt_eq")`. -/
def geOp (pa : DF → String → Option PyVal) (self : PolarsDataset) (other : Arg) :
    Except PyError PyVal :=
  comp pa self other "gt_eq"

/-- Embeds `__le__`: `self._comp(other, "lt_eq")`. -/
def leOp (pa : DF → String → Option PyVal) (self : PolarsDataset) (other : Arg) :
    Except PyError PyVal :=
  comp pa self other "lt_eq"

end PolarsDataset

/-- Recursion measure for `_apply_op`: the proxy branch re-enters once with
the unwrapped payload. -/
def Arg.rank : Arg → Nat
  | .dataset _ => 1
  | _ => 0

namespace PolarsDataset

/-- Embeds `_apply_op(self, __other, __op, *args, **kwargs)`.  If the operand is a
proxy, `getattr(self, __op)(__other.data, *args, **kwargs)` invokes the
class's own named operator method, which re-enters `_apply_op` with the
unwrapped payload; otherwise `getattr(self.data, __op)(__other, ...)`
applies the payload-level operation (the external engine, passed as
`dataOp`) and the result is stamped into a new proxy by
`dataclasses.replace(self, data=...)`. -/
def apply_op (dataOp : DF → String → Arg → List Arg → DF) (self : PolarsDataset)
    (other : Arg) (op : String) (args : List Arg) : PolarsDataset :=
  match other with
  | .dataset o => apply_op dataOp self (.df o.data) op args
  | a => dataclassesReplace self (dataOp self.data op a args)
termination_by Arg.rank other
decreasing_by simp [Arg.rank]

/-- Embeds `__floordiv__`: `self._apply_op(other, "__floordiv__")`. -/
def floordiv (dataOp : DF → String → Arg → List Arg → DF) (self : PolarsDataset)
    (other : Arg) : PolarsDataset :=
  apply_op dataOp self other "__floordiv__" []

/-- Embeds `__truediv__`: `self._apply_op(other, "__truediv__")`. -/
def truediv (dataOp : DF → String → Arg → List Arg → DF) (self : PolarsDataset)
    (other : Arg) : PolarsDataset :=
  apply_op dataOp self other "__truediv__" []

/-- Embeds `__mul__`: `self._apply_op(other, "__mul__")`. -/
def mul (dataOp : DF → String → Arg → List Arg → DF) (self : PolarsDataset)
    (other : Arg) : PolarsDataset :=
  apply_op dataOp self other "__mul__" []

/-- Embeds `__rmul__`: `self._apply_op(other, "__rmul__")`. -/
def rmul (dataOp : DF → String → Arg → List Arg → DF) (self : PolarsDataset)
    (other : Arg) : PolarsDataset :=
  apply_op dataOp self other "__rmul__" []

/-- Embeds `__add__`: `self._apply_op(other, "__add__")`. -/
def add (dataOp : DF → String → Arg → List Arg → DF) (self : PolarsDataset)
    (other : Arg) : PolarsDataset :=
  apply_op dataOp self other "__add__" []

/-- Embeds `__radd__`: `self._apply_op(other, "__radd__")`. -/
def radd (dataOp : DF → String → Arg → List Arg → DF) (self : PolarsDataset)
    (other : Arg) : PolarsDataset :=
  apply_op dataOp self other "__radd__" []

/-- Embeds `__sub__`: `self._apply_op(other, "__sub__")`. -/
def sub (dataOp : DF → String → Arg → List Arg → DF) (self : PolarsDataset)
    (other : Arg) : PolarsDataset :=
  apply_op dataOp self other "__sub__" []

/-- Embeds `__mod__`: `self._apply_op(other, "__mod__")`. -/
def mod (dataOp : DF → String → Arg → List Arg → DF) (self : PolarsDataset)
    (other : Arg) : PolarsDataset :=
  apply_op dataOp self other "__mod__" []

/-- Embeds `__getstate__(self)`: `raise NotImplementedError()`, unconditionally. -/
def getstate (_self : PolarsDataset) : Except PyError PyVal :=
  .error .notImplementedError

/-- Embeds `__getitem__(self, item)`:
`self._wrap_method(self.data.__getitem__)(item)`.  The payload's
`__getitem__` is the external engine, passed as `dfGetitem`. -/
def getitem (dfGetitem : DF → Arg → PyVal) (self : PolarsDataset)
    (item : Arg) : PyVal :=
  self.wrap_method (fun i => dfGetitem self.data i) item

/-- Embeds `__iter__(self)`: `self.data.__iter__()`, delegated directly. -/
def iter {α : Type} (dfIter : DF → α) (self : PolarsDataset) : α :=
  dfIter self.data

/-- Embeds `__reversed__(self)`: `self.data.__reversed__()`, delegated directly. -/
def reversed {α : Type} (dfRev : DF → α) (self : PolarsDataset) : α :=
  dfRev self.data

/-- Embeds `__bool__(self)`: `self.data.__bool__()`, delegated directly. -/
def toBool (dfBool : DF → Bool) (self : PolarsDataset) : Bool :=
  dfBool self.data

/-- Embeds `__len__(self)`: `len(self.data)`, delegated directly. -/
def length (dfLen : DF → Nat) (self : PolarsDataset) : Nat :=
  dfLen self.data

/-- Embeds `__copy__(self)`: `dataclasses.replace(self)`, a new proxy with the same
payload and metadata. -/
def copy (self : PolarsDataset) : PolarsDataset :=
  dataclassesReplace self self.data

/-- Embeds `join(self, other, *args, **kwargs)`: `self._apply_op(other, "join", ...)`. -/
def join (dataOp : DF → String → Arg → List Arg → DF) (self : PolarsDataset)
    (other : Arg) (args : List Arg) : PolarsDataset :=
  apply_op dataOp self other "join" args

/-- Embeds `join_asof(self, other, *args, **kwargs)`:
`self._apply_op(other, "join_asof", ...)`. -/
def join_asof (dataOp : DF → String → Arg → List Arg → DF) (self : PolarsDataset)
    (other : Arg) (args : List Arg) : PolarsDataset :=
  apply_op dataOp self other "join_asof" args

/-- Embeds `partition_by(self, *args, **kwargs)`: calls the payload's
`partition_by` (the external engine, passed as `dfPartitionBy`); a `list`
result is mapped elementwise to re-wrapped proxies, a `dict` result is
mapped over its values, and any other shape hits `assert False` — the
assertion-style fatal error. -/
def partition_by (dfPartitionBy : DF → List Arg → PyVal) (self : PolarsDataset)
    (args : List Arg) : Except PyError PyVal :=
  let result := dfPartitionBy self.data args
  match result with
  | .listDF xs =>
      .ok (.listDS (xs.map (fun new_data => dataclassesReplace self new_data)))
  | .dictDF kvs =>
      .ok (.dictDS (kvs.map (fun p => (p.1, dataclassesReplace self p.2))))
  | _ => .error (.assertionError "Unknown return type from ``partition_by``")

end PolarsDataset

/-- Embeds `isinstance(v, list)` on the embedded values. -/
def PyVal.isList : PyVal → Bool
  | .listDF _ => true
  | .listDS _ => true
  | _ => false

/-- Embeds `isinstance(v, dict)` on the embedded values. -/
def PyVal.isDict : PyVal → Bool
  | .dictDF _ => true
  | .dictDS _ => true
  | _ => false

/-- Module-level `concat(items, base, **kwargs)`:
`dataclasses.replace(base, data=pl.concat((item.data for item in items), **kwargs))`.
The engine's concatenation routine is the external `plConcat`; `kwargs` is
forwarded to it verbatim. -/
def concat (plConcat : List DF → List Arg → DF) (items : List PolarsDataset)
    (base : PolarsDataset) (kwargs : List Arg) : PolarsDataset :=
  let new_data := plConcat (items.map (fun item => item.data)) kwargs
  dataclassesReplace base new_data

/-- Model of the engine's named comparison operators on scalar entries,
per the §6 contract names `eq, neq, gt, lt, gt_eq, lt_eq`. -/
def intCmp (op : String) (x y : Int) : Bool :=
  if op = "eq" then x == y
  else if op = "neq" then x != y
  else if op = "gt" then decide (x > y)
  else if op = "lt" then decide (x < y)
  else if op = "gt_eq" then decide (x ≥ y)
  else if op = "lt_eq" then decide (x ≤ y)
  else false

/-- Model of the engine's container-vs-container comparison: elementwise
comparison of the two payload columns producing a boolean-valued container
(booleans as 0/1 entries). -/
def dfCompare (a b : DF) (op : String) : DF :=
  ⟨.dataFrame, (a.vals.zip b.vals).map (fun p => if intCmp op p.1 p.2 then 1 else 0)⟩

/-- Model of the engine's container-vs-plain-value comparison: each entry of
the payload column compared against the scalar operand. -/
def dfCompareScalar (a : DF) (v : Arg) (op : String) : DF :=
  match v with
  | .int n => ⟨.dataFrame, a.vals.map (fun x => if intCmp op x n then 1 else 0)⟩
  | _ => ⟨.dataFrame, []⟩

/-- The engine's `_compare_to_other_df` bound method on a container `d`.
`_comp` hands it the right-hand proxy itself; the proxy's attribute
delegation forwards every read to its payload, so the engine's comparison
is performed against the operand's payload. -/
def compareToOtherDfAttr (d : DF) : PyVal :=
  .func (fun args =>
    match args with
    | [.dataset o, .str op] => .df (dfCompare d o.data op)
    | [.df o, .str op] => .df (dfCompare d o op)
    | _ => .none)

/-- The engine's `_compare_to_non_df` bound method on a container `d`:
comparison against a plain (non-proxy) operand. -/
def compareToNonDfAttr (d : DF) : PyVal :=
  .func (fun args =>
    match args with
    | [a, .str op] => .df (dfCompareScalar d a op)
    | _ => .none)

/-- The engine-side attribute table exposing the comparison contract of §6. -/
def polarsAttrs (d : DF) (name : String) : Option PyVal :=
  if name = "_compare_to_other_df" then some (compareToOtherDfAttr d)
  else if name = "_compare_to_non_df" then some (compareToNonDfAttr d)
  else Option.none

theorem resolveAttr_eq_branches (self : PolarsDataset) (attr : PyVal) :
    (isDataFrameLike attr = true → ∃ d, attr = .df d) ∧
    (isCallable attr = true → ∃ f, attr = .func f) ∧
    (isDataFrameLike attr = false → isCallable attr = false →
      self.resolveAttr attr = attr) := by
  refine ⟨?_, ?_, ?_⟩ <;> cases attr <;>
    simp [isDataFrameLike, isCallable, PolarsDataset.resolveAttr]

theorem comp_polars_proxy (self o : PolarsDataset) (op : String) :
    PolarsDataset.comp polarsAttrs self (.dataset o) op =
      .ok (.dataset ⟨dfCompare self.data o.data op, self.extra_attr⟩) := by
  rfl

theorem comp_polars_nonproxy (self : PolarsDataset) (a : Arg)
    (ha : a.isDataset = false) (op : String) :
    PolarsDataset.comp polarsAttrs self a op =
      .ok (.dataset ⟨dfCompareScalar self.data a op, self.extra_attr⟩) := by
  cases a with
  | dataset o => simp [Arg.isDataset] at ha
  | df d => rfl
  | int n => rfl
  | str s => rfl

/-- C1: for every proxy and every attribute name not defined on the proxy
type itself, attribute access resolves the name against the payload and then:
(a) a recognized tabular-family value is returned wrapped in a new proxy
carrying the current proxy's metadata; (b) a callable is returned as a
wrapper that, for any arguments, calls the original and wraps the result in
a new proxy (same metadata) exactly when the result is a recognized
tabular-family value, and otherwise returns the raw result unchanged;
(c) any other value is returned unchanged. -/
theorem c1_getattr_delegation (pa : DF → String → Option PyVal)
    (self : PolarsDataset) (name : String) (attr : PyVal)
    (h : pa self.data name = some attr) :
    (∀ d, attr = .df d →
      self.getattrPD pa name = .ok (.dataset ⟨d, self.extra_attr⟩)) ∧
    (∀ f, attr = .func f →
      self.getattrPD pa name = .ok (.func (self.wrap_method f)) ∧
      ∀ args : List Arg,
        (∀ d, f args = .df d →
          self.wrap_method f args = .dataset ⟨d, self.extra_attr⟩) ∧
        (isDataFrameLike (f args) = false → self.wrap_method f args = f args)) ∧
    (isDataFrameLike attr = false → isCallable attr = false →
      self.getattrPD pa name = .ok attr) := by
  refine ⟨?_, ?_, ?_⟩
  · rintro d rfl
    simp [PolarsDataset.getattrPD, h, PolarsDataset.resolveAttr, dataclassesReplace]
  · rintro f rfl
    refine ⟨by simp [PolarsDataset.getattrPD, h, PolarsDataset.resolveAttr], ?_⟩
    intro args
    constructor
    · intro d hd
      simp [PolarsDataset.wrap_method, hd, dataclassesReplace]
    · intro hnd
      cases hfa : f args <;>
        simp_all [PolarsDataset.wrap_method, isDataFrameLike]
  · intro h1 h2
    cases attr <;>
      simp_all [PolarsDataset.getattrPD, PolarsDataset.resolveAttr,
        isDataFrameLike, isCallable]

theorem c1_getattr_delegation_witness :
    PolarsDataset.getattrPD (fun _ _ => some (.int 5))
      ⟨⟨.dataFrame, [1]⟩, "m"⟩ "shape" = .ok (.int 5) :=
  (c1_getattr_delegation (fun _ _ => some (.int 5))
    ⟨⟨.dataFrame, [1]⟩, "m"⟩ "shape" (.int 5) rfl).2.2 rfl rfl

/-- C2: every comparison operator (eq, neq, gt, lt, gt_eq, lt_eq) on a proxy
compares against the right operand's payload when that operand is a proxy
and against the raw operand otherwise; in both cases the underlying
container's corresponding comparison runs and its boolean-valued container
result is re-wrapped in a new proxy carrying the left proxy's metadata. -/
theorem c2_comparison_dispatch (self o : PolarsDataset) (a : Arg)
    (ha : a.isDataset = false) :
    (PolarsDataset.eqOp polarsAttrs self (.dataset o) =
      .ok (.dataset ⟨dfCompare self.data o.data "eq", self.extra_attr⟩)) ∧
    (PolarsDataset.neOp polarsAttrs self (.dataset o) =
      .ok (.dataset ⟨dfCompare self.data o.data "neq", self.extra_attr⟩)) ∧
    (PolarsDataset.gtOp polarsAttrs self (.dataset o) =
      .ok (.dataset ⟨dfCompare self.data o.data "gt", self.extra_attr⟩)) ∧
    (PolarsDataset.ltOp polarsAttrs self (.dataset o) =
      .ok (.dataset ⟨dfCompare self.data o.data "lt", self.extra_attr⟩)) ∧
    (PolarsDataset.geOp polarsAttrs self (.dataset o) =
      .ok (.dataset ⟨dfCompare self.data o.data "gt_eq", self.extra_attr⟩)) ∧
    (PolarsDataset.leOp polarsAttrs self (.dataset o) =
      .ok (.dataset ⟨dfCompare self.data o.data "lt_eq", self.extra_attr⟩)) ∧
    (PolarsDataset.eqOp polarsAttrs self a =
      .ok (.dataset ⟨dfCompareScalar self.data a "eq", self.extra_attr⟩)) ∧
    (PolarsDataset.neOp polarsAttrs self a =
      .ok (.dataset ⟨dfCompareScalar self.data a "neq", self.extra_attr⟩)) ∧
    (PolarsDataset.gtOp polarsAttrs self a =
      .ok (.dataset ⟨dfCompareScalar self.data a "gt", self.extra_attr⟩)) ∧
    (PolarsDataset.ltOp polarsAttrs self a =
      .ok (.dataset ⟨dfCompareScalar self.data a "lt", self.extra_attr⟩)) ∧
    (PolarsDataset.geOp polarsAttrs self a =
      .ok (.dataset ⟨dfCompareScalar self.data a "gt_eq", self.extra_attr⟩)) ∧
    (PolarsDataset.leOp polarsAttrs self a =
      .ok (.dataset ⟨dfCompareScalar self.data a "lt_eq", self.extra_attr⟩)) := by
  refine ⟨?_, ?_, ?_, ?_, ?_, ?_, ?_, ?_, ?_, ?_, ?_, ?_⟩ <;>
    simp [PolarsDataset.eqOp, PolarsDataset.neOp, PolarsDataset.gtOp,
      PolarsDataset.ltOp, PolarsDataset.geOp, PolarsDataset.leOp,
      comp_polars_proxy, comp_polars_nonproxy self a ha]

theorem c2_comparison_dispatch_witness :
    (Arg.int 3).isDataset = false ∧
    PolarsDataset.eqOp polarsAttrs ⟨⟨.dataFrame, [3, 4]⟩, "m"⟩ (.int 3) =
      .ok (.dataset ⟨dfCompareScalar ⟨.dataFrame, [3, 4]⟩ (.int 3) "eq", "m"⟩) :=
  ⟨rfl, (c2_comparison_dispatch ⟨⟨.dataFrame, [3, 4]⟩, "m"⟩
    ⟨⟨.dataFrame, [0]⟩, "n"⟩ (.int 3) rfl).2.2.2.2.2.2.1⟩

/-- C4: the operator `<=` maps to the underlying `lt_eq` comparison and `>=`
to `gt_eq`; for proxies wrapping comparable payloads, `a <= b` equals the
proxy wrapping the payload-level `lt_eq` of the two payloads, and (whenever
the two payload-level comparisons differ) does not equal the result of a
`gt_eq` comparison. -/
theorem c4_le_maps_to_lt_eq (self o : PolarsDataset)
    (h : dfCompare self.data o.data "lt_eq" ≠ dfCompare self.data o.data "gt_eq") :
    PolarsDataset.leOp polarsAttrs self (.dataset o) =
      .ok (.dataset ⟨dfCompare self.data o.data "lt_eq", self.extra_attr⟩) ∧
    PolarsDataset.geOp polarsAttrs self (.dataset o) =
      .ok (.dataset ⟨dfCompare self.data o.data "gt_eq", self.extra_attr⟩) ∧
    PolarsDataset.leOp polarsAttrs self (.dataset o) ≠
      PolarsDataset.geOp polarsAttrs self (.dataset o) := by
  have h1 := comp_polars_proxy self o "lt_eq"
  have h2 := comp_polars_proxy self o "gt_eq"
  refine ⟨h1, h2, ?_⟩
  simp only [PolarsDataset.leOp, PolarsDataset.geOp, h1, h2]
  intro hc
  simp only [Except.ok.injEq, PyVal.dataset.injEq, PolarsDataset.mk.injEq] at hc
  exact h hc.1

theorem c4_le_maps_to_lt_eq_witness :
    dfCompare ⟨.dataFrame, [1]⟩ ⟨.dataFrame, [2]⟩ "lt_eq" ≠
      dfCompare ⟨.dataFrame, [1]⟩ ⟨.dataFrame, [2]⟩ "gt_eq" ∧
    PolarsDataset.leOp polarsAttrs ⟨⟨.dataFrame, [1]⟩, "m"⟩
        (.dataset ⟨⟨.dataFrame, [2]⟩, "n"⟩) ≠
      PolarsDataset.geOp polarsAttrs ⟨⟨.dataFrame, [1]⟩, "m"⟩
        (.dataset ⟨⟨.dataFrame, [2]⟩, "n"⟩) :=
  ⟨by decide, (c4_le_maps_to_lt_eq ⟨⟨.dataFrame, [1]⟩, "m"⟩
    ⟨⟨.dataFrame, [2]⟩, "n"⟩ (by decide)).2.2⟩

theorem apply_op_proxy (dataOp : DF → String → Arg → List Arg → DF)
    (self o : PolarsDataset) (op : String) (args : List Arg) :
    PolarsDataset.apply_op dataOp self (.dataset o) op args =
      ⟨dataOp self.data op (.df o.data) args, self.extra_attr⟩ := by
  rw [PolarsDataset.apply_op, PolarsDataset.apply_op] <;>
    simp [dataclassesReplace]

theorem apply_op_nonproxy (dataOp : DF → String → Arg → List Arg → DF)
    (self : PolarsDataset) (a : Arg) (ha : a.isDataset = false)
    (op : String) (args : List Arg) :
    PolarsDataset.apply_op dataOp self a op args =
      ⟨dataOp self.data op a args, self.extra_attr⟩ := by
  cases a with
  | dataset o => simp [Arg.isDataset] at ha
  | df d => rw [PolarsDataset.apply_op] <;> simp [dataclassesReplace]
  | int n => rw [PolarsDataset.apply_op] <;> simp [dataclassesReplace]
  | str s => rw [PolarsDataset.apply_op] <;> simp [dataclassesReplace]

/-- C3: each arithmetic operator (floordiv, truediv, mul, reflected mul, add,
reflected add, sub, mod) applied to a proxy operates on the other operand's
payload when that operand is a proxy and on the raw operand otherwise, and
the result is always re-wrapped into a new proxy whose metadata is `self`'s,
never the other operand's. -/
theorem c3_arithmetic_ops (dataOp : DF → String → Arg → List Arg → DF)
    (self o : PolarsDataset) (a : Arg) (ha : a.isDataset = false) :
    (self.floordiv dataOp (.dataset o) =
      ⟨dataOp self.data "__floordiv__" (.df o.data) [], self.extra_attr⟩) ∧
    (self.floordiv dataOp a =
      ⟨dataOp self.data "__floordiv__" a [], self.extra_attr⟩) ∧
    (self.truediv dataOp (.dataset o) =
      ⟨dataOp self.data "__truediv__" (.df o.data) [], self.extra_attr⟩) ∧
    (self.truediv dataOp a =
      ⟨dataOp self.data "__truediv__" a [], self.extra_attr⟩) ∧
    (self.mul dataOp (.dataset o) =
      ⟨dataOp self.data "__mul__" (.df o.data) [], self.extra_attr⟩) ∧
    (self.mul dataOp a =
      ⟨dataOp self.data "__mul__" a [], self.extra_attr⟩) ∧
    (self.rmul dataOp (.dataset o) =
      ⟨dataOp self.data "__rmul__" (.df o.data) [], self.extra_attr⟩) ∧
    (self.rmul dataOp a =
      ⟨dataOp self.data "__rmul__" a [], self.extra_attr⟩) ∧
    (self.add dataOp (.dataset o) =
      ⟨dataOp self.data "__add__" (.df o.data) [], self.extra_attr⟩) ∧
    (self.add dataOp a =
      ⟨dataOp self.data "__add__" a [], self.extra_attr⟩) ∧
    (self.radd dataOp (.dataset o) =
      ⟨dataOp self.data "__radd__" (.df o.data) [], self.extra_attr⟩) ∧
    (self.radd dataOp a =
      ⟨dataOp self.data "__radd__" a [], self.extra_attr⟩) ∧
    (self.sub dataOp (.dataset o) =
      ⟨dataOp self.data "__sub__" (.df o.data) [], self.extra_attr⟩) ∧
    (self.sub dataOp a =
      ⟨dataOp self.data "__sub__" a [], self.extra_attr⟩) ∧
    (self.mod dataOp (.dataset o) =
      ⟨dataOp self.data "__mod__" (.df o.data) [], self.extra_attr⟩) ∧
    (self.mod dataOp a =
      ⟨dataOp self.data "__mod__" a [], self.extra_attr⟩) := by
  refine ⟨?_, ?_, ?_, ?_, ?_, ?_, ?_, ?_, ?_, ?_, ?_, ?_, ?_, ?_, ?_, ?_⟩ <;>
    simp [PolarsDataset.floordiv, PolarsDataset.truediv, PolarsDataset.mul,
      PolarsDataset.rmul, PolarsDataset.add, PolarsDataset.radd,
      PolarsDataset.sub, PolarsDataset.mod,
      apply_op_proxy, apply_op_nonproxy dataOp self a ha]

theorem c3_arithmetic_ops_witness :
    (Arg.int 2).isDataset = false ∧
    PolarsDataset.mul (fun d _ _ _ => d) ⟨⟨.dataFrame, [7]⟩, "m"⟩ (.int 2) =
      ⟨⟨.dataFrame, [7]⟩, "m"⟩ :=
  ⟨rfl, (c3_arithmetic_ops (fun d _ _ _ => d) ⟨⟨.dataFrame, [7]⟩, "m"⟩
    ⟨⟨.dataFrame, [0]⟩, "n"⟩ (.int 2) rfl).2.2.2.2.2.1⟩

theorem lookup_map_values (f : DF → PolarsDataset) (kvs : List (Arg × DF))
    (k : Arg) :
    (kvs.map (fun p => (p.1, f p.2))).lookup k = (kvs.lookup k).map f := by
  induction kvs with
  | nil => rfl
  | cons p rest ih =>
      cases hk : k == p.1 <;> simp [List.lookup, hk, ih]

/-- C5: when the payload's `partition_by` returns an ordered sequence of
containers, the proxy's `partition_by` returns a sequence of the same length
in the same order, each element a new proxy wrapping the corresponding
container and carrying `self`'s metadata; when it returns a mapping, the
proxy returns a mapping with exactly the same keys whose values are new
proxies wrapping the corresponding containers with `self`'s metadata. -/
theorem c5_partition_by_shapes (dfPartitionBy : DF → List Arg → PyVal)
    (self : PolarsDataset) (args : List Arg) :
    (∀ xs, dfPartitionBy self.data args = .listDF xs →
      ∃ ys, self.partition_by dfPartitionBy args = .ok (.listDS ys) ∧
        ys.length = xs.length ∧
        ∀ i, ys.get? i = (xs.get? i).map (fun d => ⟨d, self.extra_attr⟩)) ∧
    (∀ kvs, dfPartitionBy self.data args = .dictDF kvs →
      ∃ ws, self.partition_by dfPartitionBy args = .ok (.dictDS ws) ∧
        ws.map Prod.fst = kvs.map Prod.fst ∧
        ∀ k, ws.lookup k = (kvs.lookup k).map (fun d => ⟨d, self.extra_attr⟩)) := by
  constructor
  · rintro xs hx
    refine ⟨xs.map (fun d => ⟨d, self.extra_attr⟩), ?_, ?_, ?_⟩
    · simp [PolarsDataset.partition_by, hx, dataclassesReplace]
    · simp
    · intro i
      simp [List.get?_map]
  · rintro kvs hk
    refine ⟨kvs.map (fun p => (p.1, ⟨p.2, self.extra_attr⟩)), ?_, ?_, ?_⟩
    · simp [PolarsDataset.partition_by, hk, dataclassesReplace]
    · simp
    · intro k
      exact lookup_map_values (fun d => ⟨d, self.extra_attr⟩) kvs k

theorem c5_partition_by_shapes_witness :
    ∃ ys, PolarsDataset.partition_by
        (fun _ _ => .listDF [⟨.dataFrame, [1]⟩, ⟨.dataFrame, [2]⟩, ⟨.dataFrame, [3]⟩])
        ⟨⟨.dataFrame, [0]⟩, "m"⟩ [] = .ok (.listDS ys) ∧
      ys.length = [⟨.dataFrame, [1]⟩, ⟨.dataFrame, [2]⟩, (⟨.dataFrame, [3]⟩ : DF)].length ∧
      ∀ i, ys.get? i =
        ([⟨.dataFrame, [1]⟩, ⟨.dataFrame, [2]⟩, (⟨.dataFrame, [3]⟩ : DF)].get? i).map
          (fun d => ⟨d, "m"⟩) :=
  (c5_partition_by_shapes
    (fun _ _ => .listDF [⟨.dataFrame, [1]⟩, ⟨.dataFrame, [2]⟩, ⟨.dataFrame, [3]⟩])
    ⟨⟨.dataFrame, [0]⟩, "m"⟩ []).1
    [⟨.dataFrame, [1]⟩, ⟨.dataFrame, [2]⟩, ⟨.dataFrame, [3]⟩] rfl

/-- C6: when the payload's `partition_by` returns a value that is neither a
sequence nor a mapping, the proxy's `partition_by` fails with the
assertion-style fatal error (`assert False`), not a recoverable exception
and not a value. -/
theorem c6_partition_by_bad_shape (dfPartitionBy : DF → List Arg → PyVal)
    (self : PolarsDataset) (args : List Arg)
    (h1 : (dfPartitionBy self.data args).isList = false)
    (h2 : (dfPartitionBy self.data args).isDict = false) :
    self.partition_by dfPartitionBy args =
      .error (.assertionError "Unknown return type from ``partition_by``") := by
  cases hres : dfPartitionBy self.data args <;>
    simp_all [PolarsDataset.partition_by, PyVal.isList, PyVal.isDict]

theorem c6_partition_by_bad_shape_witness :
    PolarsDataset.partition_by (fun _ _ => .int 0) ⟨⟨.dataFrame, [0]⟩, "m"⟩ [] =
      .error (.assertionError "Unknown return type from ``partition_by``") :=
  c6_partition_by_bad_shape (fun _ _ => .int 0) ⟨⟨.dataFrame, [0]⟩, "m"⟩ [] rfl rfl

/-- C7: `concat(items, base, **kwargs)` returns a single new proxy whose
payload is the external concatenation of the items' payloads (with the extra
configuration forwarded verbatim) and whose metadata is exactly `base`'s
metadata, independent of the items' own metadata. -/
theorem c7_concat_metadata (plConcat : List DF → List Arg → DF)
    (items : List PolarsDataset) (base : PolarsDataset) (kwargs : List Arg) :
    concat plConcat items base kwargs =
      ⟨plConcat (items.map (fun item => item.data)) kwargs, base.extra_attr⟩ ∧
    ∀ items' : List PolarsDataset,
      items.map (fun item => item.data) = items'.map (fun item => item.data) →
      concat plConcat items base kwargs = concat plConcat items' base kwargs := by
  constructor
  · simp [concat, dataclassesReplace]
  · intro items' hsame
    simp [concat, hsame]

theorem c7_concat_metadata_witness :
    concat (fun ds _ => ⟨.dataFrame, (ds.map DF.vals).flatten⟩)
      [⟨⟨.dataFrame, [1]⟩, "a"⟩, ⟨⟨.dataFrame, [2]⟩, "b"⟩]
      ⟨⟨.dataFrame, []⟩, "X"⟩ [] = ⟨⟨.dataFrame, [1, 2]⟩, "X"⟩ :=
  (c7_concat_metadata (fun ds _ => ⟨.dataFrame, (ds.map DF.vals).flatten⟩)
    [⟨⟨.dataFrame, [1]⟩, "a"⟩, ⟨⟨.dataFrame, [2]⟩, "b"⟩]
    ⟨⟨.dataFrame, []⟩, "X"⟩ []).1

/-- C8: indexing a proxy behaves like the generic method-delegation path —
a tabular-family result is re-wrapped in a new proxy with `self`'s metadata
and any other result is returned unchanged — whereas iteration, reversal,
truthiness and length delegate directly to the payload's corresponding
protocol and never re-wrap their results. -/
theorem c8_item_access (dfGetitem : DF → Arg → PyVal) {α β : Type}
    (dfIter : DF → α) (dfRev : DF → β) (dfBool : DF → Bool) (dfLen : DF → Nat)
    (self : PolarsDataset) (item : Arg) :
    (∀ d, dfGetitem self.data item = .df d →
      self.getitem dfGetitem item = .dataset ⟨d, self.extra_attr⟩) ∧
    (isDataFrameLike (dfGetitem self.data item) = false →
      self.getitem dfGetitem item = dfGetitem self.data item) ∧
    PolarsDataset.iter dfIter self = dfIter self.data ∧
    PolarsDataset.reversed dfRev self = dfRev self.data ∧
    PolarsDataset.toBool dfBool self = dfBool self.data ∧
    PolarsDataset.length dfLen self = dfLen self.data := by
  refine ⟨?_, ?_, rfl, rfl, rfl, rfl⟩
  · intro d hd
    simp [PolarsDataset.getitem, PolarsDataset.wrap_method, hd, dataclassesReplace]
  · intro hnd
    cases hr : dfGetitem self.data item <;>
      simp_all [PolarsDataset.getitem, PolarsDataset.wrap_method, isDataFrameLike]

theorem c8_item_access_witness :
    PolarsDataset.getitem (fun _ _ => .df ⟨.lazyFrame, [9]⟩)
      ⟨⟨.dataFrame, [0]⟩, "m"⟩ (.int 0) = .dataset ⟨⟨.lazyFrame, [9]⟩, "m"⟩ :=
  (c8_item_access (fun _ _ => .df ⟨.lazyFrame, [9]⟩) (fun d => d.vals)
    (fun d => d.vals) (fun _ => false) (fun d => d.vals.length)
    ⟨⟨.dataFrame, [0]⟩, "m"⟩ (.int 0)).1 ⟨.lazyFrame, [9]⟩ rfl

/-- C9: for every proxy, regardless of payload and metadata, capturing its
state for serialization (the `__getstate__` path) fails with the
"not implemented" error, unconditionally. -/
theorem c9_getstate_rejected (self : PolarsDataset) :
    self.getstate = .error .notImplementedError := rfl

/-- C10: the proxy type defines no `_compare_to_other_df` or
`_compare_to_non_df` methods, so the comparison dispatcher resolves these
names through the attribute-delegation path against the payload; for every
proxy whose payload lacks `_compare_to_other_df` (respectively
`_compare_to_non_df`), every comparison operator applied with a proxy
(respectively non-proxy) right-hand operand raises an attribute-lookup
error instead of performing a comparison. -/
theorem c10_missing_compare_methods (pa : DF → String → Option PyVal)
    (self o : PolarsDataset) (a : Arg) (ha : a.isDataset = false) :
    (pa self.data "_compare_to_other_df" = Option.none →
      PolarsDataset.eqOp pa self (.dataset o) =
        .error (.attributeError "_compare_to_other_df") ∧
      PolarsDataset.neOp pa self (.dataset o) =
        .error (.attributeError "_compare_to_other_df") ∧
      PolarsDataset.gtOp pa self (.dataset o) =
        .error (.attributeError "_compare_to_other_df") ∧
      PolarsDataset.ltOp pa self (.dataset o) =
        .error (.attributeError "_compare_to_other_df") ∧
      PolarsDataset.geOp pa self (.dataset o) =
        .error (.attributeError "_compare_to_other_df") ∧
      PolarsDataset.leOp pa self (.dataset o) =
        .error (.attributeError "_compare_to_other_df")) ∧
    (pa self.data "_compare_to_non_df" = Option.none →
      PolarsDataset.eqOp pa self a =
        .error (.attributeError "_compare_to_non_df") ∧
      PolarsDataset.neOp pa self a =
        .error (.attributeError "_compare_to_non_df") ∧
      PolarsDataset.gtOp pa self a =
        .error (.attributeError "_compare_to_non_df") ∧
      PolarsDataset.ltOp pa self a =
        .error (.attributeError "_compare_to_non_df") ∧
      PolarsDataset.geOp pa self a =
        .error (.attributeError "_compare_to_non_df") ∧
      PolarsDataset.leOp pa self a =
        .error (.attributeError "_compare_to_non_df")) := by
  constructor
  · intro h
    refine ⟨?_, ?_, ?_, ?_, ?_, ?_⟩ <;>
      simp [PolarsDataset.eqOp, PolarsDataset.neOp, PolarsDataset.gtOp,
        PolarsDataset.ltOp, PolarsDataset.geOp, PolarsDataset.leOp,
        PolarsDataset.comp, Arg.isDataset, PolarsDataset.callAttr,
        PolarsDataset.getattrPD, h, Bind.bind, Except.bind]
  · intro h
    refine ⟨?_, ?_, ?_, ?_, ?_, ?_⟩ <;>
      simp [PolarsDataset.eqOp, PolarsDataset.neOp, PolarsDataset.gtOp,
        PolarsDataset.ltOp, PolarsDataset.geOp, PolarsDataset.leOp,
        PolarsDataset.comp, ha, PolarsDataset.callAttr,
        PolarsDataset.getattrPD, h, Bind.bind, Except.bind]

theorem c10_missing_compare_methods_witness :
    (Arg.int 0).isDataset = false ∧
    (fun (_ : DF) (_ : String) => (Option.none : Option PyVal))
      (⟨.dataFrame, [1]⟩ : DF) "_compare_to_other_df" = Option.none ∧
    PolarsDataset.ltOp (fun _ _ => Option.none) ⟨⟨.dataFrame, [1]⟩, "m"⟩
        (.dataset ⟨⟨.dataFrame, [2]⟩, "n"⟩) =
      .error (.attributeError "_compare_to_other_df") ∧
    PolarsDataset.ltOp (fun _ _ => Option.none) ⟨⟨.dataFrame, [1]⟩, "m"⟩ (.int 0) =
      .error (.attributeError "_compare_to_non_df") :=
  ⟨rfl, rfl,
   ((c10_missing_compare_methods (fun _ _ => Option.none) ⟨⟨.dataFrame, [1]⟩, "m"⟩
      ⟨⟨.dataFrame, [2]⟩, "n"⟩ (.int 0) rfl).1 rfl).2.2.2.1,
   ((c10_missing_compare_methods (fun _ _ => Option.none) ⟨⟨.dataFrame, [1]⟩, "m"⟩
      ⟨⟨.dataFrame, [2]⟩, "n"⟩ (.int 0) rfl).2 rfl).2.2.2.1⟩
